import Mathlib

/-!
Verification of the Nigerian tax calculation module (`taxCalculations`).

JavaScript numbers are modelled as rationals (ℚ); `Math.round` is modelled as
`fun x => ⌊x + 1/2⌋`, which agrees with the JavaScript semantics (round half
toward positive infinity).  `Infinity` as a bracket upper bound is modelled by
`Option ℚ` with `none` standing for `Infinity`: `Math.min(x, Infinity) = x`.
-/

namespace TaxCalculations

/-- Rounding to two decimal places as the source performs it:
`Math.round(x * 100) / 100`, with `Math.round x = ⌊x + 1/2⌋`. -/
def round2 (x : ℚ) : ℚ := ((⌊x * 100 + 1/2⌋ : ℤ) : ℚ) / 100

/-- A PIT bracket record `{ min, max, rate }`; `max = none` models `Infinity`. -/
structure Bracket where
  min : ℚ
  max : Option ℚ
  rate : ℚ

/-- The 2026 monthly PIT bracket table `PIT_BRACKETS` from the source. -/
def PIT_BRACKETS : List Bracket :=
  [ ⟨0, some 300000, 7/100⟩,
    ⟨300001, some 600000, 11/100⟩,
    ⟨600001, some 1100000, 15/100⟩,
    ⟨1100001, some 1600000, 19/100⟩,
    ⟨1600001, some 3200000, 21/100⟩,
    ⟨3200001, some 3900000, 24/100⟩,
    ⟨3900001, some 6000000, 27/100⟩,
    ⟨6000001, none, 30/100⟩ ]

/-- `Math.min(income, bracket.max)` where `max` may be `Infinity`. -/
def upperOf (income : ℚ) (b : Bracket) : ℚ :=
  match b.max with
  | none => income
  | some M => min income M

/-- The second (effective) loop of `calculateMonthlyPIT`:
for each bracket, break once `monthlyIncome <= bracket.min`, otherwise add
`max(0, min(income, bracket.max) - lowerBound) * bracket.rate` where
`lowerBound = (bracket.min === 0 ? 0 : bracket.min)`. -/
def progressiveTax (income : ℚ) : List Bracket → ℚ
  | [] => 0
  | b :: bs =>
    if income ≤ b.min then 0
    else
      (max 0 (upperOf income b - (if b.min = 0 then 0 else b.min))) * b.rate +
        progressiveTax income bs

/-- `taxableInBracket = Math.min(remainingIncome, bracket.max - bracket.min + 1)`
from the first loop; the bracket size is `Infinity` when `max` is `Infinity`. -/
def taxableInBracket (remaining : ℚ) (b : Bracket) : ℚ :=
  match b.max with
  | none => remaining
  | some M => min remaining (M - b.min + 1)

/-- The first (dead) loop of `calculateMonthlyPIT`, accumulating `tax` and
`remainingIncome` exactly as the source does, with `break` on
`remainingIncome <= 0`. -/
def firstPass (monthlyIncome : ℚ) : List Bracket → ℚ → ℚ → ℚ
  | [], tax, _ => tax
  | b :: bs, tax, remaining =>
    if remaining ≤ 0 then tax
    else if b.min = 0 then
      let actualTaxable :=
        match b.max with
        | none => monthlyIncome
        | some M => min monthlyIncome M
      firstPass monthlyIncome bs (tax + actualTaxable * b.rate) (remaining - actualTaxable)
    else if b.min - 1 < monthlyIncome then
      let incomeInThisBracket :=
        match b.max with
        | none => monthlyIncome - b.min + 1
        | some M => min (monthlyIncome - b.min + 1) (M - b.min + 1)
      let tax' := if 0 < incomeInThisBracket then tax + incomeInThisBracket * b.rate else tax
      firstPass monthlyIncome bs tax' (remaining - taxableInBracket remaining b)
    else
      firstPass monthlyIncome bs tax remaining

/-- `calculateMonthlyPIT` from the source: a guard for non-positive income, the
first accumulation loop, then `tax = 0` and the second loop overwriting it, and
finally `Math.round(tax * 100) / 100`. -/
def calculateMonthlyPIT (monthlyIncome : ℚ) : ℚ :=
  if monthlyIncome ≤ 0 then 0
  else
    let tax := firstPass monthlyIncome PIT_BRACKETS 0 monthlyIncome
    let tax := progressiveTax monthlyIncome PIT_BRACKETS
    round2 tax

/-- Variant of `calculateMonthlyPIT` keeping only the second loop. -/
def calculateMonthlyPITSecondOnly (monthlyIncome : ℚ) : ℚ :=
  if monthlyIncome ≤ 0 then 0
  else round2 (progressiveTax monthlyIncome PIT_BRACKETS)

/-- The `TaxResult` record returned by `calculatePIT`. -/
structure TaxResult where
  taxableIncome : ℚ
  monthlyTax : ℚ
  annualTax : ℚ
  netIncome : ℚ
  effectiveRate : ℚ

/-- `calculatePIT` from the source. -/
def calculatePIT (monthlyIncome : ℚ) (allowancesOrExpenses : ℚ) : TaxResult :=
  let taxableIncome := max 0 (monthlyIncome - allowancesOrExpenses)
  let monthlyTax := calculateMonthlyPIT taxableIncome
  let annualTax := monthlyTax * 12
  let netIncome := taxableIncome - monthlyTax
  let effectiveRate := if 0 < taxableIncome then monthlyTax / taxableIncome * 100 else 0
  ⟨taxableIncome, monthlyTax, annualTax, netIncome, round2 effectiveRate⟩

/-- The `CITResult` record returned by `calculateCIT`. -/
structure CITResult where
  profit : ℚ
  annualTax : ℚ
  netProfit : ℚ
  effectiveRate : ℚ

def CIT_THRESHOLD : ℚ := 25000000

def CIT_RATE_LOWER : ℚ := 20/100

def CIT_RATE_HIGHER : ℚ := 30/100

/-- The CIT tax assignment from the source: `profit * CIT_RATE_LOWER` when
`profit <= CIT_THRESHOLD`, otherwise
`CIT_THRESHOLD * CIT_RATE_LOWER + (profit - CIT_THRESHOLD) * CIT_RATE_HIGHER`. -/
def citRawTax (profit : ℚ) : ℚ :=
  if profit ≤ CIT_THRESHOLD then profit * CIT_RATE_LOWER
  else CIT_THRESHOLD * CIT_RATE_LOWER + (profit - CIT_THRESHOLD) * CIT_RATE_HIGHER

/-- `calculateCIT` from the source. -/
def calculateCIT (annualRevenue : ℚ) (annualExpenses : ℚ) : CITResult :=
  let profit := max 0 (annualRevenue - annualExpenses)
  let annualTax := citRawTax profit
  let netProfit := profit - annualTax
  let effectiveRate := if 0 < profit then annualTax / profit * 100 else 0
  ⟨profit, round2 annualTax, round2 netProfit, round2 effectiveRate⟩

/-- The bracket table exactly as the specification words it:
0–300,000 @7%; 300,001–600,000 @11%; 600,001–1,100,000 @15%;
1,100,001–1,600,000 @19%; 1,600,001–3,200,000 @21%; 3,200,001–3,900,000 @24%;
3,900,001–6,000,000 @27%; 6,000,001–∞ @30%. -/
def SPEC_BRACKETS : List Bracket :=
  [ ⟨0, some 300000, 7/100⟩,
    ⟨300001, some 600000, 11/100⟩,
    ⟨600001, some 1100000, 15/100⟩,
    ⟨1100001, some 1600000, 19/100⟩,
    ⟨1600001, some 3200000, 21/100⟩,
    ⟨3200001, some 3900000, 24/100⟩,
    ⟨3900001, some 6000000, 27/100⟩,
    ⟨6000001, none, 30/100⟩ ]

/-- The sum the specification describes: over the brackets in ascending order,
stopping once `monthlyIncome <= lowerBound`, add
`(min(monthlyIncome, upperBound) - lowerBound) * rate`. -/
def specTaxSum (income : ℚ) : List Bracket → ℚ
  | [] => 0
  | b :: bs =>
    if income ≤ b.min then 0
    else (upperOf income b - b.min) * b.rate + specTaxSum income bs

/-- The monthly PIT as the specification words it: 0 on non-positive income,
otherwise the bracket sum rounded to 2 decimal places. -/
def specMonthlyPIT (income : ℚ) : ℚ :=
  if income ≤ 0 then 0 else round2 (specTaxSum income SPEC_BRACKETS)

/-- A rational is a whole number of kobo: `x * 100` is an integer
(at most 2 decimal digits). -/
def IsKobo (x : ℚ) : Prop := ∃ n : ℤ, x * 100 = (n : ℚ)

/-- Well-formedness of a bracket list starting at `c`: each bracket begins at
or after `c`, its lower bound does not exceed its upper bound, and an unbounded
bracket is the last one. -/
def ChainFrom (c : ℚ) : List Bracket → Prop
  | [] => True
  | b :: bs => c ≤ b.min ∧
      (match b.max with
       | some M => b.min ≤ M ∧ ChainFrom M bs
       | none => bs = [])

/-! ### Rounding lemmas -/

lemma round2_le (x : ℚ) : round2 x ≤ x + 1/200 := by
  have h := Int.floor_le (x * 100 + 1/2)
  unfold round2
  rw [div_le_iff₀ (by norm_num : (0:ℚ) < 100)]
  linarith

lemma round2_mono {x y : ℚ} (h : x ≤ y) : round2 x ≤ round2 y := by
  unfold round2
  have h1 : (⌊x * 100 + 1/2⌋ : ℤ) ≤ ⌊y * 100 + 1/2⌋ := Int.floor_le_floor (by linarith)
  have h2 : ((⌊x * 100 + 1/2⌋ : ℤ) : ℚ) ≤ ((⌊y * 100 + 1/2⌋ : ℤ) : ℚ) := by
    exact_mod_cast h1
  linarith

lemma round2_nonneg {x : ℚ} (h : 0 ≤ x) : 0 ≤ round2 x := by
  unfold round2
  have h0 : (0 : ℤ) ≤ ⌊x * 100 + 1/2⌋ := Int.le_floor.mpr (by push_cast; linarith)
  have h2 : (0 : ℚ) ≤ ((⌊x * 100 + 1/2⌋ : ℤ) : ℚ) := by exact_mod_cast h0
  linarith

lemma round2_eq_zero {x : ℚ} (h0 : 0 ≤ x) (h1 : x < 1/200) : round2 x = 0 := by
  unfold round2
  have : ⌊x * 100 + 1/2⌋ = 0 := by
    rw [Int.floor_eq_zero_iff]
    constructor <;> simp <;> linarith
  rw [this]
  norm_num

lemma round2_isKobo (x : ℚ) : IsKobo (round2 x) := by
  refine ⟨⌊x * 100 + 1/2⌋, ?_⟩
  unfold round2
  field_simp

/-- If `0 ≤ T ≤ (3/10) p` then the rounded value of `T` stays below `p`. -/
lemma round2_le_of_le_three_tenths {p T : ℚ} (h0 : 0 ≤ T) (h3 : T ≤ 3/10 * p)
    (hp : 0 ≤ p) : round2 T ≤ p := by
  rcases le_or_lt (1/140) p with hc | hc
  · have := round2_le T
    linarith
  · have hT : T < 1/200 := by linarith
    rw [round2_eq_zero h0 hT]
    exact hp

/-! ### Facts about the bracket table -/

lemma pit_rates_nonneg : ∀ b ∈ PIT_BRACKETS, 0 ≤ b.rate := by
  intro b hb
  simp only [PIT_BRACKETS, List.mem_cons, List.not_mem_nil, or_false] at hb
  rcases hb with rfl | rfl | rfl | rfl | rfl | rfl | rfl | rfl <;> norm_num

lemma pit_rates_le : ∀ b ∈ PIT_BRACKETS, b.rate ≤ 3/10 := by
  intro b hb
  simp only [PIT_BRACKETS, List.mem_cons, List.not_mem_nil, or_false] at hb
  rcases hb with rfl | rfl | rfl | rfl | rfl | rfl | rfl | rfl <;> norm_num

lemma pit_chain : ChainFrom 0 PIT_BRACKETS := by
  simp only [PIT_BRACKETS, ChainFrom]
  norm_num

lemma pit_brackets_wf : ∀ b ∈ PIT_BRACKETS, ∀ M, b.max = some M → b.min ≤ M := by
  intro b hb
  simp only [PIT_BRACKETS, List.mem_cons, List.not_mem_nil, or_false] at hb
  rcases hb with rfl | rfl | rfl | rfl | rfl | rfl | rfl | rfl <;>
    (intro M hM; simp only [Option.some.injEq] at hM <;> first
      | (subst hM; norm_num)
      | exact absurd hM (by simp))

/-! ### Lemmas about the second (effective) PIT loop -/

lemma progressiveTax_nonneg (x : ℚ) :
    ∀ bs : List Bracket, (∀ b ∈ bs, 0 ≤ b.rate) → 0 ≤ progressiveTax x bs := by
  intro bs
  induction bs with
  | nil => intro _; simp [progressiveTax]
  | cons b bs ih =>
    intro h
    by_cases hx : x ≤ b.min
    · simp [progressiveTax, hx]
    · simp only [progressiveTax, if_neg hx]
      have h1 : 0 ≤ max 0 (upperOf x b - (if b.min = 0 then 0 else b.min)) :=
        le_max_left _ _
      have h2 : 0 ≤ b.rate := h b (List.mem_cons_self _ _)
      have h3 : 0 ≤ progressiveTax x bs := ih fun c hc => h c (List.mem_cons_of_mem _ hc)
      positivity

lemma upperOf_mono {x y : ℚ} (h : x ≤ y) (b : Bracket) : upperOf x b ≤ upperOf y b := by
  unfold upperOf
  rcases b.max with _ | M
  · exact h
  · exact min_le_min h le_rfl

lemma progressiveTax_mono {x y : ℚ} (hxy : x ≤ y) :
    ∀ bs : List Bracket, (∀ b ∈ bs, 0 ≤ b.rate) →
      progressiveTax x bs ≤ progressiveTax y bs := by
  intro bs
  induction bs with
  | nil => intro _; simp [progressiveTax]
  | cons b bs ih =>
    intro h
    by_cases hx : x ≤ b.min
    · simp only [progressiveTax, if_pos hx]
      exact progressiveTax_nonneg y (b :: bs) h
    · have hy : ¬ y ≤ b.min := fun hy => hx (hxy.trans hy)
      simp only [progressiveTax, if_neg hx, if_neg hy]
      have hterm : max 0 (upperOf x b - (if b.min = 0 then 0 else b.min)) ≤
          max 0 (upperOf y b - (if b.min = 0 then 0 else b.min)) :=
        max_le_max le_rfl (by have := upperOf_mono hxy b; linarith)
      have hr : 0 ≤ b.rate := h b (List.mem_cons_self _ _)
      have hrec := ih fun c hc => h c (List.mem_cons_of_mem _ hc)
      have := mul_le_mul_of_nonneg_right hterm hr
      linarith

/-- The loop taxes each naira at most once: on a well-formed bracket list
starting at `c` with all rates at most `r`, the accumulated tax is at most
`r * max 0 (x - c)`. -/
lemma progressiveTax_le_mul (x r : ℚ) (hr : 0 ≤ r) :
    ∀ (bs : List Bracket) (c : ℚ), ChainFrom c bs → (∀ b ∈ bs, b.rate ≤ r) →
      progressiveTax x bs ≤ r * max 0 (x - c) := by
  intro bs
  induction bs with
  | nil =>
    intro c _ _
    simp only [progressiveTax]
    positivity
  | cons b bs ih =>
    intro c hch hrates
    obtain ⟨hcb, hrest⟩ := hch
    by_cases hx : x ≤ b.min
    · simp only [progressiveTax, if_pos hx]
      positivity
    · push_neg at hx
      have hl : (if b.min = 0 then 0 else b.min) = b.min := by
        split_ifs with h0
        · exact h0.symm
        · rfl
      simp only [progressiveTax, if_neg (not_le.mpr hx), hl]
      have hbr : b.rate ≤ r := hrates b (List.mem_cons_self _ _)
      rcases hM : b.max with _ | M
      · -- unbounded bracket: it is the last one
        rw [hM] at hrest
        subst hrest
        simp only [progressiveTax, upperOf, hM]
        rw [max_eq_right (by linarith)]
        have h1 : (x - b.min) * b.rate ≤ r * (x - b.min) := by
          rw [mul_comm]
          exact mul_le_mul_of_nonneg_right hbr (by linarith)
        have h2 : r * (x - b.min) ≤ r * max 0 (x - c) := by
          apply mul_le_mul_of_nonneg_left _ hr
          calc x - b.min ≤ x - c := by linarith
            _ ≤ max 0 (x - c) := le_max_right _ _
        linarith
      · rw [hM] at hrest
        obtain ⟨hbM, hchM⟩ := hrest
        have hrec := ih M hchM fun b hb => hrates b (List.mem_cons_of_mem _ hb)
        simp only [upperOf, hM]
        have hlow : b.min ≤ min x M := le_min hx.le hbM
        rw [max_eq_right (by linarith)]
        have h1 : (min x M - b.min) * b.rate ≤ r * (min x M - b.min) := by
          rw [mul_comm]
          exact mul_le_mul_of_nonneg_right hbr (by linarith)
        have h2 : min x M - b.min + max 0 (x - M) ≤ max 0 (x - c) := by
          rcases le_total x M with hxM | hxM
          · rw [min_eq_left hxM, max_eq_left (by linarith)]
            calc x - b.min + 0 ≤ x - c := by linarith
              _ ≤ max 0 (x - c) := le_max_right _ _
          · rw [min_eq_right hxM, max_eq_right (by linarith)]
            calc M - b.min + (x - M) = x - b.min := by ring
              _ ≤ x - c := by linarith
              _ ≤ max 0 (x - c) := le_max_right _ _
        have h3 : r * (min x M - b.min) + r * max 0 (x - M) ≤ r * max 0 (x - c) := by
          rw [← mul_add]
          exact mul_le_mul_of_nonneg_left h2 hr
        linarith

/-- On brackets whose lower bound does not exceed the upper bound, the source
loop computes exactly the sum the specification describes. -/
lemma progressiveTax_eq_specTaxSum (x : ℚ) :
    ∀ bs : List Bracket, (∀ b ∈ bs, ∀ M, b.max = some M → b.min ≤ M) →
      progressiveTax x bs = specTaxSum x bs := by
  intro bs
  induction bs with
  | nil => intro _; simp [progressiveTax, specTaxSum]
  | cons b bs ih =>
    intro h
    by_cases hx : x ≤ b.min
    · simp [progressiveTax, specTaxSum, hx]
    · push_neg at hx
      have hub : b.min ≤ upperOf x b := by
        rcases hM : b.max with _ | M
        · simp only [upperOf, hM]
          exact hx.le
        · have := h b (List.mem_cons_self _ _) M hM
          simp only [upperOf, hM]
          exact le_min hx.le this
      have hl : (if b.min = 0 then 0 else b.min) = b.min := by
        split_ifs with h0
        · exact h0.symm
        · rfl
      simp only [progressiveTax, specTaxSum, if_neg (not_le.mpr hx), hl]
      rw [max_eq_right (by linarith), ih fun c hc => h c (List.mem_cons_of_mem _ hc)]

/-! ### Step lemmas for evaluating the loop near a bracket edge -/

lemma progressiveTax_cons_stop (x m r : ℚ) (Mo : Option ℚ) (bs : List Bracket)
    (h : x ≤ m) : progressiveTax x (⟨m, Mo, r⟩ :: bs) = 0 := by
  simp [progressiveTax, h]

lemma progressiveTax_cons_fin (x m M r : ℚ) (bs : List Bracket) (h : m < x) :
    progressiveTax x (⟨m, some M, r⟩ :: bs) =
      max 0 (min x M - (if m = 0 then 0 else m)) * r + progressiveTax x bs := by
  simp [progressiveTax, upperOf, not_le.mpr h]

lemma progressiveTax_cons_inf (x m r : ℚ) (bs : List Bracket) (h : m < x) :
    progressiveTax x (⟨m, none, r⟩ :: bs) =
      max 0 (x - (if m = 0 then 0 else m)) * r + progressiveTax x bs := by
  simp [progressiveTax, upperOf, not_le.mpr h]

/-! ### Derived facts about the exported functions -/

lemma calculateMonthlyPIT_nonneg (x : ℚ) : 0 ≤ calculateMonthlyPIT x := by
  unfold calculateMonthlyPIT
  split_ifs with h
  · exact le_refl 0
  · show 0 ≤ round2 (progressiveTax x PIT_BRACKETS)
    exact round2_nonneg (progressiveTax_nonneg x PIT_BRACKETS pit_rates_nonneg)

lemma calculateMonthlyPIT_le_self {x : ℚ} (hx : 0 ≤ x) : calculateMonthlyPIT x ≤ x := by
  unfold calculateMonthlyPIT
  split_ifs with h
  · exact hx
  · show round2 (progressiveTax x PIT_BRACKETS) ≤ x
    have h0 := progressiveTax_nonneg x PIT_BRACKETS pit_rates_nonneg
    have h3 : progressiveTax x PIT_BRACKETS ≤ 3/10 * x := by
      have := progressiveTax_le_mul x (3/10) (by norm_num) PIT_BRACKETS 0 pit_chain pit_rates_le
      rwa [sub_zero, max_eq_right hx] at this
    exact round2_le_of_le_three_tenths h0 h3 hx

lemma calculateMonthlyPIT_isKobo (x : ℚ) : IsKobo (calculateMonthlyPIT x) := by
  unfold calculateMonthlyPIT
  split_ifs with h
  · exact ⟨0, by norm_num⟩
  · show IsKobo (round2 (progressiveTax x PIT_BRACKETS))
    exact round2_isKobo _

lemma citRawTax_nonneg {p : ℚ} (hp : 0 ≤ p) : 0 ≤ citRawTax p := by
  unfold citRawTax CIT_THRESHOLD CIT_RATE_LOWER CIT_RATE_HIGHER
  split_ifs with h
  · positivity
  · push_neg at h
    nlinarith

lemma citRawTax_le {p : ℚ} (hp : 0 ≤ p) : citRawTax p ≤ 3/10 * p := by
  unfold citRawTax CIT_THRESHOLD CIT_RATE_LOWER CIT_RATE_HIGHER
  split_ifs with h
  · nlinarith
  · push_neg at h
    nlinarith

lemma IsKobo.sub {x y : ℚ} : IsKobo x → IsKobo y → IsKobo (x - y) := by
  rintro ⟨n, hn⟩ ⟨m, hm⟩
  exact ⟨n - m, by push_cast; linarith [hn, hm, sub_mul x y 100]⟩

lemma IsKobo.mul12 {x : ℚ} : IsKobo x → IsKobo (x * 12) := by
  rintro ⟨n, hn⟩
  exact ⟨12 * n, by push_cast; nlinarith [hn]⟩

lemma IsKobo.maxZero {x : ℚ} : IsKobo x → IsKobo (max 0 x) := by
  rintro ⟨n, hn⟩
  rcases le_total x 0 with h | h
  · exact ⟨0, by rw [max_eq_left h]; norm_num⟩
  · exact ⟨n, by rwa [max_eq_right h]⟩

lemma pit_marginal_edge2 (d : ℚ) (hd : 0 < d) (hdle : d ≤ 299999) :
    progressiveTax (300001 + d) PIT_BRACKETS =
      progressiveTax 300001 PIT_BRACKETS + 11/100 * d := by
  have hm : progressiveTax (300001:ℚ) PIT_BRACKETS = 21000 := by
    norm_num [progressiveTax, PIT_BRACKETS, upperOf]
  rw [hm]
  simp only [PIT_BRACKETS]
  rw [progressiveTax_cons_fin _ _ _ _ _ (by linarith),
      progressiveTax_cons_fin _ _ _ _ _ (by linarith),
      progressiveTax_cons_stop _ _ _ _ _ (by linarith)]
  rw [min_eq_right (by linarith : (300000:ℚ) ≤ 300001 + d),
      min_eq_left (by linarith : (300001:ℚ) + d ≤ 600000)]
  rw [if_neg (by norm_num : ¬ (300001:ℚ) = 0)]
  rw [show (300001:ℚ) + d - 300001 = d from by ring, max_eq_right hd.le]
  norm_num
  ring

lemma pit_marginal_edge3 (d : ℚ) (hd : 0 < d) (hdle : d ≤ 499999) :
    progressiveTax (600001 + d) PIT_BRACKETS =
      progressiveTax 600001 PIT_BRACKETS + 15/100 * d := by
  have hm : progressiveTax (600001:ℚ) PIT_BRACKETS = 5399989/100 := by
    norm_num [progressiveTax, PIT_BRACKETS, upperOf]
  rw [hm]
  simp only [PIT_BRACKETS]
  rw [progressiveTax_cons_fin _ _ _ _ _ (by linarith),
      progressiveTax_cons_fin _ _ _ _ _ (by linarith),
      progressiveTax_cons_fin _ _ _ _ _ (by linarith),
      progressiveTax_cons_stop _ _ _ _ _ (by linarith)]
  rw [min_eq_right (by linarith : (300000:ℚ) ≤ 600001 + d),
      min_eq_right (by linarith : (600000:ℚ) ≤ 600001 + d),
      min_eq_left (by linarith : (600001:ℚ) + d ≤ 1100000)]
  rw [if_neg (by norm_num : ¬ (600001:ℚ) = 0)]
  rw [show (600001:ℚ) + d - 600001 = d from by ring, max_eq_right hd.le]
  norm_num
  ring

lemma pit_marginal_edge4 (d : ℚ) (hd : 0 < d) (hdle : d ≤ 499999) :
    progressiveTax (1100001 + d) PIT_BRACKETS =
      progressiveTax 1100001 PIT_BRACKETS + 19/100 * d := by
  have hm : progressiveTax (1100001:ℚ) PIT_BRACKETS = 6449987/50 := by
    norm_num [progressiveTax, PIT_BRACKETS, upperOf]
  rw [hm]
  simp only [PIT_BRACKETS]
  rw [progressiveTax_cons_fin _ _ _ _ _ (by linarith),
      progressiveTax_cons_fin _ _ _ _ _ (by linarith),
      progressiveTax_cons_fin _ _ _ _ _ (by linarith),
      progressiveTax_cons_fin _ _ _ _ _ (by linarith),
      progressiveTax_cons_stop _ _ _ _ _ (by linarith)]
  rw [min_eq_right (by linarith : (300000:ℚ) ≤ 1100001 + d),
      min_eq_right (by linarith : (600000:ℚ) ≤ 1100001 + d),
      min_eq_right (by linarith : (1100000:ℚ) ≤ 1100001 + d),
      min_eq_left (by linarith : (1100001:ℚ) + d ≤ 1600000)]
  rw [if_neg (by norm_num : ¬ (1100001:ℚ) = 0)]
  rw [show (1100001:ℚ) + d - 1100001 = d from by ring, max_eq_right hd.le]
  norm_num
  ring

lemma pit_marginal_edge5 (d : ℚ) (hd : 0 < d) (hdle : d ≤ 1599999) :
    progressiveTax (1600001 + d) PIT_BRACKETS =
      progressiveTax 1600001 PIT_BRACKETS + 21/100 * d := by
  have hm : progressiveTax (1600001:ℚ) PIT_BRACKETS = 4479991/20 := by
    norm_num [progressiveTax, PIT_BRACKETS, upperOf]
  rw [hm]
  simp only [PIT_BRACKETS]
  rw [progressiveTax_cons_fin _ _ _ _ _ (by linarith),
      progressiveTax_cons_fin _ _ _ _ _ (by linarith),
      progressiveTax_cons_fin _ _ _ _ _ (by linarith),
      progressiveTax_cons_fin _ _ _ _ _ (by linarith),
      progressiveTax_cons_fin _ _ _ _ _ (by linarith),
      progressiveTax_cons_stop _ _ _ _ _ (by linarith)]
  rw [min_eq_right (by linarith : (300000:ℚ) ≤ 1600001 + d),
      min_eq_right (by linarith : (600000:ℚ) ≤ 1600001 + d),
      min_eq_right (by linarith : (1100000:ℚ) ≤ 1600001 + d),
      min_eq_right (by linarith : (1600000:ℚ) ≤ 1600001 + d),
      min_eq_left (by linarith : (1600001:ℚ) + d ≤ 3200000)]
  rw [if_neg (by norm_num : ¬ (1600001:ℚ) = 0)]
  rw [show (1600001:ℚ) + d - 1600001 = d from by ring, max_eq_right hd.le]
  norm_num
  ring

lemma pit_marginal_edge6 (d : ℚ) (hd : 0 < d) (hdle : d ≤ 699999) :
    progressiveTax (3200001 + d) PIT_BRACKETS =
      progressiveTax 3200001 PIT_BRACKETS + 24/100 * d := by
  have hm : progressiveTax (3200001:ℚ) PIT_BRACKETS = 27999967/50 := by
    norm_num [progressiveTax, PIT_BRACKETS, upperOf]
  rw [hm]
  simp only [PIT_BRACKETS]
  rw [progressiveTax_cons_fin _ _ _ _ _ (by linarith),
      progressiveTax_cons_fin _ _ _ _ _ (by linarith),
      progressiveTax_cons_fin _ _ _ _ _ (by linarith),
      progressiveTax_cons_fin _ _ _ _ _ (by linarith),
      progressiveTax_cons_fin _ _ _ _ _ (by linarith),
      progressiveTax_cons_fin _ _ _ _ _ (by linarith),
      progressiveTax_cons_stop _ _ _ _ _ (by linarith)]
  rw [min_eq_right (by linarith : (300000:ℚ) ≤ 3200001 + d),
      min_eq_right (by linarith : (600000:ℚ) ≤ 3200001 + d),
      min_eq_right (by linarith : (1100000:ℚ) ≤ 3200001 + d),
      min_eq_right (by linarith : (1600000:ℚ) ≤ 3200001 + d),
      min_eq_right (by linarith : (3200000:ℚ) ≤ 3200001 + d),
      min_eq_left (by linarith : (3200001:ℚ) + d ≤ 3900000)]
  rw [if_neg (by norm_num : ¬ (3200001:ℚ) = 0)]
  rw [show (3200001:ℚ) + d - 3200001 = d from by ring, max_eq_right hd.le]
  norm_num
  ring

lemma pit_marginal_edge7 (d : ℚ) (hd : 0 < d) (hdle : d ≤ 2099999) :
    progressiveTax (3900001 + d) PIT_BRACKETS =
      progressiveTax 3900001 PIT_BRACKETS + 27/100 * d := by
  have hm : progressiveTax (3900001:ℚ) PIT_BRACKETS = 7279991/10 := by
    norm_num [progressiveTax, PIT_BRACKETS, upperOf]
  rw [hm]
  simp only [PIT_BRACKETS]
  rw [progressiveTax_cons_fin _ _ _ _ _ (by linarith),
      progressiveTax_cons_fin _ _ _ _ _ (by linarith),
      progressiveTax_cons_fin _ _ _ _ _ (by linarith),
      progressiveTax_cons_fin _ _ _ _ _ (by linarith),
      progressiveTax_cons_fin _ _ _ _ _ (by linarith),
      progressiveTax_cons_fin _ _ _ _ _ (by linarith),
      progressiveTax_cons_fin _ _ _ _ _ (by linarith),
      progressiveTax_cons_stop _ _ _ _ _ (by linarith)]
  rw [min_eq_right (by linarith : (300000:ℚ) ≤ 3900001 + d),
      min_eq_right (by linarith : (600000:ℚ) ≤ 3900001 + d),
      min_eq_right (by linarith : (1100000:ℚ) ≤ 3900001 + d),
      min_eq_right (by linarith : (1600000:ℚ) ≤ 3900001 + d),
      min_eq_right (by linarith : (3200000:ℚ) ≤ 3900001 + d),
      min_eq_right (by linarith : (3900000:ℚ) ≤ 3900001 + d),
      min_eq_left (by linarith : (3900001:ℚ) + d ≤ 6000000)]
  rw [if_neg (by norm_num : ¬ (3900001:ℚ) = 0)]
  rw [show (3900001:ℚ) + d - 3900001 = d from by ring, max_eq_right hd.le]
  norm_num
  ring

lemma pit_marginal_edge8 (d : ℚ) (hd : 0 < d) :
    progressiveTax (6000001 + d) PIT_BRACKETS =
      progressiveTax 6000001 PIT_BRACKETS + 30/100 * d := by
  have hm : progressiveTax (6000001:ℚ) PIT_BRACKETS = 129499883/100 := by
    norm_num [progressiveTax, PIT_BRACKETS, upperOf]
  rw [hm]
  simp only [PIT_BRACKETS]
  rw [progressiveTax_cons_fin _ _ _ _ _ (by linarith),
      progressiveTax_cons_fin _ _ _ _ _ (by linarith),
      progressiveTax_cons_fin _ _ _ _ _ (by linarith),
      progressiveTax_cons_fin _ _ _ _ _ (by linarith),
      progressiveTax_cons_fin _ _ _ _ _ (by linarith),
      progressiveTax_cons_fin _ _ _ _ _ (by linarith),
      progressiveTax_cons_fin _ _ _ _ _ (by linarith),
      progressiveTax_cons_inf _ _ _ _ (by linarith)]
  rw [min_eq_right (by linarith : (300000:ℚ) ≤ 6000001 + d),
      min_eq_right (by linarith : (600000:ℚ) ≤ 6000001 + d),
      min_eq_right (by linarith : (1100000:ℚ) ≤ 6000001 + d),
      min_eq_right (by linarith : (1600000:ℚ) ≤ 6000001 + d),
      min_eq_right (by linarith : (3200000:ℚ) ≤ 6000001 + d),
      min_eq_right (by linarith : (3900000:ℚ) ≤ 6000001 + d),
      min_eq_right (by linarith : (6000000:ℚ) ≤ 6000001 + d)]
  rw [if_neg (by norm_num : ¬ (6000001:ℚ) = 0)]
  rw [show (6000001:ℚ) + d - 6000001 = d from by ring, max_eq_right hd.le]
  norm_num [progressiveTax]
  ring

lemma round2_zero : round2 0 = 0 := by norm_num [round2]

/-- The first loop really computes a different value than the second one
(income 300,001 gets 21,000.11 from the first pass but 21,000 from the
second), so overwriting it changes the result of the overwritten variable. -/
lemma firstPass_ne_progressiveTax_at_300001 :
    firstPass 300001 PIT_BRACKETS 0 300001 ≠ progressiveTax 300001 PIT_BRACKETS := by
  have h1 : firstPass 300001 PIT_BRACKETS 0 300001 = 2100011/100 := by
    simp only [PIT_BRACKETS]
    rw [firstPass, firstPass, firstPass]
    norm_num [taxableInBracket]
    rw [firstPass]
    norm_num
  have h2 : progressiveTax 300001 PIT_BRACKETS = 21000 := by
    norm_num [progressiveTax, PIT_BRACKETS, upperOf]
  rw [h1, h2]
  norm_num

/-! ### Claims -/

/-- Claim C1: for every monthlyIncome, `calculateMonthlyPIT` returns 0 on
non-positive input and otherwise the sum, over the brackets in ascending order
stopping once the income is at most the lower bound, of
`(min(income, upperBound) - lowerBound) * rate` over the published bracket
table, rounded half-up to 2 decimal places. -/
theorem calculateMonthlyPIT_matches_spec (x : ℚ) :
    calculateMonthlyPIT x = specMonthlyPIT x := by
  unfold calculateMonthlyPIT specMonthlyPIT
  by_cases hx : x ≤ 0
  · simp [hx]
  · simp only [if_neg hx]
    show round2 (progressiveTax x PIT_BRACKETS) = round2 (specTaxSum x SPEC_BRACKETS)
    have hsb : SPEC_BRACKETS = PIT_BRACKETS := rfl
    rw [hsb, progressiveTax_eq_specTaxSum x PIT_BRACKETS pit_brackets_wf]

/-- Claim C2: at the first bracket edge, `calculateMonthlyPIT 300000` is
exactly `300000 * 7% = 21000`, and `calculateMonthlyPIT 300001` equals
`21000 + 0.01 * 0.11` after rounding to 2 decimal places, namely 21000:
only the 7% rate applies to the first 300,000. -/
theorem calculateMonthlyPIT_first_bracket_edge :
    calculateMonthlyPIT 300000 = 21000 ∧
    calculateMonthlyPIT 300000 = 300000 * (7/100) ∧
    calculateMonthlyPIT 300001 = round2 (21000 + (1/100) * (11/100)) ∧
    calculateMonthlyPIT 300001 = 21000 := by
  refine ⟨?_, ?_, ?_, ?_⟩ <;>
    norm_num [calculateMonthlyPIT, progressiveTax, PIT_BRACKETS, upperOf, round2]

/-- Claim C3, counterexample: at revenue 1/8 and expenses 0 the profit is
1/8 (below the threshold), but the returned `annualTax` is `round2 (1/40)`,
which is 0.03, not `profit * 0.20 = 0.025` as the claim states. -/
theorem calculateCIT_unrounded_cex :
    (calculateCIT (1/8) 0).profit = 1/8 ∧ ((1:ℚ)/8) ≤ 25000000 ∧
    (calculateCIT (1/8) 0).annualTax ≠ (1/8) * (20/100) := by
  refine ⟨?_, by norm_num, ?_⟩ <;>
    norm_num [calculateCIT, citRawTax, CIT_THRESHOLD, CIT_RATE_LOWER,
      CIT_RATE_HIGHER, round2]

/-- Claim C3, amended: `calculateCIT` returns
`profit = max 0 (revenue - expenses)`; `annualTax` is the two-tier tax
(20% up to 25,000,000, then 20% of the threshold plus 30% of the excess)
rounded to 2 decimal places; `netProfit` is `profit` minus the unrounded tax,
rounded to 2 decimal places; and the two threshold examples hold exactly. -/
theorem calculateCIT_fields (r e : ℚ) :
    (calculateCIT r e).profit = max 0 (r - e) ∧
    (calculateCIT r e).annualTax =
      round2 (if max 0 (r - e) ≤ 25000000 then max 0 (r - e) * (20/100)
        else 25000000 * (20/100) + (max 0 (r - e) - 25000000) * (30/100)) ∧
    (calculateCIT r e).netProfit =
      round2 (max 0 (r - e) -
        (if max 0 (r - e) ≤ 25000000 then max 0 (r - e) * (20/100)
          else 25000000 * (20/100) + (max 0 (r - e) - 25000000) * (30/100))) ∧
    (calculateCIT 25000000 0).annualTax = 5000000 ∧
    (calculateCIT 30000000 0).annualTax = 6500000 := by
  refine ⟨rfl, rfl, rfl, ?_, ?_⟩ <;>
    norm_num [calculateCIT, citRawTax, CIT_THRESHOLD, CIT_RATE_LOWER,
      CIT_RATE_HIGHER, round2]

/-- Claim C4: `calculatePIT` returns
`taxableIncome = max 0 (monthlyIncome - allowancesOrExpenses)` (negative raw
income is clamped, no error), `monthlyTax = calculateMonthlyPIT taxableIncome`,
`annualTax = monthlyTax * 12` and `netIncome = taxableIncome - monthlyTax`,
all exactly. -/
theorem calculatePIT_fields (m a : ℚ) :
    (calculatePIT m a).taxableIncome = max 0 (m - a) ∧
    (calculatePIT m a).monthlyTax = calculateMonthlyPIT (max 0 (m - a)) ∧
    (calculatePIT m a).annualTax = calculateMonthlyPIT (max 0 (m - a)) * 12 ∧
    (calculatePIT m a).netIncome = max 0 (m - a) - calculateMonthlyPIT (max 0 (m - a)) :=
  ⟨rfl, rfl, rfl, rfl⟩

/-- Claim C5, counterexample: at monthly income 1/200 (half a kobo) and no
deductions, the returned `taxableIncome` is 1/200, which is not a whole
number of kobo, so not every monetary field has at most 2 decimal digits. -/
theorem calculatePIT_kobo_cex : ¬ IsKobo ((calculatePIT (1/200) 0).taxableIncome) := by
  rintro ⟨n, hn⟩
  have h : (calculatePIT (1/200) 0).taxableIncome = 1/200 := by
    norm_num [calculatePIT]
  rw [h] at hn
  have h2 : (2 * n : ℤ) = 1 := by
    have hq : ((2 * n : ℤ) : ℚ) = 1 := by push_cast; linarith
    exact_mod_cast hq
  omega

/-- Claim C5, amended: the fields that the source rounds (`monthlyTax` and
`annualTax` of `calculatePIT`; `annualTax` and `netProfit` of `calculateCIT`)
are always whole numbers of kobo; the unrounded fields (`taxableIncome` and
`netIncome` of `calculatePIT`; `profit` of `calculateCIT`) are whole numbers
of kobo whenever the inputs are. -/
theorem tax_fields_kobo (m a r e : ℚ) :
    IsKobo ((calculatePIT m a).monthlyTax) ∧
    IsKobo ((calculatePIT m a).annualTax) ∧
    IsKobo ((calculateCIT r e).annualTax) ∧
    IsKobo ((calculateCIT r e).netProfit) ∧
    (IsKobo m → IsKobo a →
      IsKobo ((calculatePIT m a).taxableIncome) ∧ IsKobo ((calculatePIT m a).netIncome)) ∧
    (IsKobo r → IsKobo e → IsKobo ((calculateCIT r e).profit)) := by
  refine ⟨?_, ?_, ?_, ?_, ?_, ?_⟩
  · show IsKobo (calculateMonthlyPIT (max 0 (m - a)))
    exact calculateMonthlyPIT_isKobo _
  · show IsKobo (calculateMonthlyPIT (max 0 (m - a)) * 12)
    exact (calculateMonthlyPIT_isKobo _).mul12
  · show IsKobo (round2 (citRawTax (max 0 (r - e))))
    exact round2_isKobo _
  · show IsKobo (round2 (max 0 (r - e) - citRawTax (max 0 (r - e))))
    exact round2_isKobo _
  · intro hm ha
    have ht : IsKobo (max 0 (m - a)) := (hm.sub ha).maxZero
    exact ⟨ht, ht.sub (calculateMonthlyPIT_isKobo _)⟩
  · intro hr he
    exact (hr.sub he).maxZero

/-- Witness for the amended Claim C5 at whole-kobo inputs 1 and 0. -/
theorem tax_fields_kobo_witness :
    IsKobo ((calculatePIT 1 0).taxableIncome) ∧ IsKobo ((calculatePIT 1 0).netIncome) :=
  (tax_fields_kobo 1 0 1 0).2.2.2.2.1 ⟨100, by norm_num⟩ ⟨0, by norm_num⟩

/-- Claim C6: at each of the seven bracket edges the tax at the upper bound of
bracket N equals the tax at the lower bound of bracket N+1, and income
exceeding the lower bound of bracket N+1 by `d` (within the bracket) is taxed
exactly `rate * d` more by the bracket loop: no jump in the total tax. -/
theorem pit_continuous_at_bracket_edges :
    (calculateMonthlyPIT 300000 = calculateMonthlyPIT 300001 ∧
      ∀ d : ℚ, 0 < d → d ≤ 299999 →
        progressiveTax (300001 + d) PIT_BRACKETS =
          progressiveTax 300001 PIT_BRACKETS + 11/100 * d) ∧
    (calculateMonthlyPIT 600000 = calculateMonthlyPIT 600001 ∧
      ∀ d : ℚ, 0 < d → d ≤ 499999 →
        progressiveTax (600001 + d) PIT_BRACKETS =
          progressiveTax 600001 PIT_BRACKETS + 15/100 * d) ∧
    (calculateMonthlyPIT 1100000 = calculateMonthlyPIT 1100001 ∧
      ∀ d : ℚ, 0 < d → d ≤ 499999 →
        progressiveTax (1100001 + d) PIT_BRACKETS =
          progressiveTax 1100001 PIT_BRACKETS + 19/100 * d) ∧
    (calculateMonthlyPIT 1600000 = calculateMonthlyPIT 1600001 ∧
      ∀ d : ℚ, 0 < d → d ≤ 1599999 →
        progressiveTax (1600001 + d) PIT_BRACKETS =
          progressiveTax 1600001 PIT_BRACKETS + 21/100 * d) ∧
    (calculateMonthlyPIT 3200000 = calculateMonthlyPIT 3200001 ∧
      ∀ d : ℚ, 0 < d → d ≤ 699999 →
        progressiveTax (3200001 + d) PIT_BRACKETS =
          progressiveTax 3200001 PIT_BRACKETS + 24/100 * d) ∧
    (calculateMonthlyPIT 3900000 = calculateMonthlyPIT 3900001 ∧
      ∀ d : ℚ, 0 < d → d ≤ 2099999 →
        progressiveTax (3900001 + d) PIT_BRACKETS =
          progressiveTax 3900001 PIT_BRACKETS + 27/100 * d) ∧
    (calculateMonthlyPIT 6000000 = calculateMonthlyPIT 6000001 ∧
      ∀ d : ℚ, 0 < d →
        progressiveTax (6000001 + d) PIT_BRACKETS =
          progressiveTax 6000001 PIT_BRACKETS + 30/100 * d) := by
  refine ⟨⟨?_, pit_marginal_edge2⟩, ⟨?_, pit_marginal_edge3⟩, ⟨?_, pit_marginal_edge4⟩,
    ⟨?_, pit_marginal_edge5⟩, ⟨?_, pit_marginal_edge6⟩, ⟨?_, pit_marginal_edge7⟩,
    ⟨?_, pit_marginal_edge8⟩⟩ <;>
    norm_num [calculateMonthlyPIT, progressiveTax, PIT_BRACKETS, upperOf, round2]

/-- Witness for Claim C6: one naira above the second bracket lower bound is
taxed 11 kobo more. -/
theorem pit_continuous_at_bracket_edges_witness :
    progressiveTax (300001 + 1) PIT_BRACKETS =
      progressiveTax 300001 PIT_BRACKETS + 11/100 * 1 :=
  pit_continuous_at_bracket_edges.1.2 1 (by norm_num) (by norm_num)

/-- Claim C7: `calculateMonthlyPIT` is monotone non-decreasing: for
`x1 < x2` with `0 ≤ x2`, the tax at `x1` is at most the tax at `x2`. -/
theorem calculateMonthlyPIT_monotone (x1 x2 : ℚ) (h : x1 < x2) (h2 : 0 ≤ x2) :
    calculateMonthlyPIT x1 ≤ calculateMonthlyPIT x2 := by
  unfold calculateMonthlyPIT
  by_cases hx1 : x1 ≤ 0
  · rw [if_pos hx1]
    split_ifs with hx2
    · exact le_refl 0
    · show (0:ℚ) ≤ round2 (progressiveTax x2 PIT_BRACKETS)
      exact round2_nonneg (progressiveTax_nonneg _ _ pit_rates_nonneg)
  · have hx2 : ¬ x2 ≤ 0 := by push_neg at hx1 ⊢; linarith
    rw [if_neg hx1, if_neg hx2]
    show round2 (progressiveTax x1 PIT_BRACKETS) ≤ round2 (progressiveTax x2 PIT_BRACKETS)
    exact round2_mono (progressiveTax_mono h.le _ pit_rates_nonneg)

/-- Witness for Claim C7 at incomes 100 and 200. -/
theorem calculateMonthlyPIT_monotone_witness :
    calculateMonthlyPIT 100 ≤ calculateMonthlyPIT 200 :=
  calculateMonthlyPIT_monotone 100 200 (by norm_num) (by norm_num)

/-- Claim C8: the effective rates are guarded: `calculatePIT` returns
`round2 (monthlyTax / taxableIncome * 100)` when `taxableIncome > 0` and 0
otherwise, and `calculateCIT` returns `round2 (annualTax / profit * 100)`
(with the pre-rounding tax of the contract) when `profit > 0` and 0
otherwise; the functions are total Lean functions, so no division by zero or
exception can occur. -/
theorem effectiveRate_guarded (m a r e : ℚ) :
    (calculatePIT m a).effectiveRate =
      (if 0 < (calculatePIT m a).taxableIncome
        then round2 ((calculatePIT m a).monthlyTax / (calculatePIT m a).taxableIncome * 100)
        else 0) ∧
    (calculateCIT r e).effectiveRate =
      (if 0 < (calculateCIT r e).profit
        then round2 (citRawTax ((calculateCIT r e).profit) / (calculateCIT r e).profit * 100)
        else 0) := by
  constructor
  · show round2 (if 0 < max 0 (m - a)
        then calculateMonthlyPIT (max 0 (m - a)) / max 0 (m - a) * 100 else 0) =
      (if 0 < max 0 (m - a)
        then round2 (calculateMonthlyPIT (max 0 (m - a)) / max 0 (m - a) * 100) else 0)
    split_ifs with h
    · rfl
    · exact round2_zero
  · show round2 (if 0 < max 0 (r - e)
        then citRawTax (max 0 (r - e)) / max 0 (r - e) * 100 else 0) =
      (if 0 < max 0 (r - e)
        then round2 (citRawTax (max 0 (r - e)) / max 0 (r - e) * 100) else 0)
    split_ifs with h
    · rfl
    · exact round2_zero

/-- Claim C9: the first bracket-accumulation loop of `calculateMonthlyPIT` is
dead code: the function returns exactly what the variant containing only the
second loop returns, because `tax = 0` overwrites the first accumulation. -/
theorem calculateMonthlyPIT_first_loop_dead (x : ℚ) :
    calculateMonthlyPIT x = calculateMonthlyPITSecondOnly x := rfl

/-- Claim C10: every field of both result records is nonnegative, the PIT
monthly tax never exceeds the taxable income (so net income is nonnegative),
and the CIT annual tax never exceeds the profit (so net profit is
nonnegative), for all inputs including negative ones. -/
theorem tax_results_nonneg (m a r e : ℚ) :
    0 ≤ (calculatePIT m a).taxableIncome ∧
    0 ≤ (calculatePIT m a).monthlyTax ∧
    0 ≤ (calculatePIT m a).annualTax ∧
    0 ≤ (calculatePIT m a).netIncome ∧
    0 ≤ (calculatePIT m a).effectiveRate ∧
    (calculatePIT m a).monthlyTax ≤ (calculatePIT m a).taxableIncome ∧
    0 ≤ (calculateCIT r e).profit ∧
    0 ≤ (calculateCIT r e).annualTax ∧
    0 ≤ (calculateCIT r e).netProfit ∧
    0 ≤ (calculateCIT r e).effectiveRate ∧
    (calculateCIT r e).annualTax ≤ (calculateCIT r e).profit := by
  have ht : (0:ℚ) ≤ max 0 (m - a) := le_max_left _ _
  have hp : (0:ℚ) ≤ max 0 (r - e) := le_max_left _ _
  refine ⟨le_max_left _ _, ?_, ?_, ?_, ?_, ?_, le_max_left _ _, ?_, ?_, ?_, ?_⟩
  · show (0:ℚ) ≤ calculateMonthlyPIT (max 0 (m - a))
    exact calculateMonthlyPIT_nonneg _
  · show (0:ℚ) ≤ calculateMonthlyPIT (max 0 (m - a)) * 12
    have := calculateMonthlyPIT_nonneg (max 0 (m - a))
    linarith
  · show (0:ℚ) ≤ max 0 (m - a) - calculateMonthlyPIT (max 0 (m - a))
    have := calculateMonthlyPIT_le_self ht
    linarith
  · show (0:ℚ) ≤ round2 (if 0 < max 0 (m - a)
        then calculateMonthlyPIT (max 0 (m - a)) / max 0 (m - a) * 100 else 0)
    apply round2_nonneg
    split_ifs with h
    · have h1 := calculateMonthlyPIT_nonneg (max 0 (m - a))
      positivity
    · exact le_refl 0
  · show calculateMonthlyPIT (max 0 (m - a)) ≤ max 0 (m - a)
    exact calculateMonthlyPIT_le_self ht
  · show (0:ℚ) ≤ round2 (citRawTax (max 0 (r - e)))
    exact round2_nonneg (citRawTax_nonneg hp)
  · show (0:ℚ) ≤ round2 (max 0 (r - e) - citRawTax (max 0 (r - e)))
    apply round2_nonneg
    have := citRawTax_le hp
    linarith
  · show (0:ℚ) ≤ round2 (if 0 < max 0 (r - e)
        then citRawTax (max 0 (r - e)) / max 0 (r - e) * 100 else 0)
    apply round2_nonneg
    split_ifs with h
    · have h1 := citRawTax_nonneg hp
      positivity
    · exact le_refl 0
  · show round2 (citRawTax (max 0 (r - e))) ≤ max 0 (r - e)
    exact round2_le_of_le_three_tenths (citRawTax_nonneg hp) (citRawTax_le hp) hp

end TaxCalculations
